import Mathlib

/-!
Verification development for the PDF structural extraction / editable-model
conversion / PDF re-synthesis pipeline (chat/advanced_pdf_service.py,
chat/pdf_generator.py, chat/pdf_extractor.py).

The Python code is shallowly embedded: float coordinates become rationals,
dictionaries become structures, exceptions become Except values, and the
pervasive try/except blocks around sub-steps become explicit branching on
those Except values.  External libraries (PyMuPDF, PIL, pdfplumber,
reportlab) are modelled by taking their results as inputs: the embedding
covers everything the repository itself computes from those results.
-/

/-- Bounding box, the 4-tuple [x0, y0, x1, y1] used throughout the source. -/
structure BBox where
  x0 : ℚ
  y0 : ℚ
  x1 : ℚ
  y1 : ℚ
  deriving DecidableEq

/-- Embedding of AdvancedPDFExtractor._is_inside (advanced_pdf_service.py
lines 295-302): containment with a 5 point slack on all four sides. -/
def _is_inside (inner_bbox outer_bbox : BBox) : Bool :=
  decide (outer_bbox.x0 - 5 ≤ inner_bbox.x0) &&
  decide (outer_bbox.y0 - 5 ≤ inner_bbox.y0) &&
  decide (inner_bbox.x1 ≤ outer_bbox.x1 + 5) &&
  decide (inner_bbox.y1 ≤ outer_bbox.y1 + 5)

/-- The x_overlap quantity computed inside _boxes_overlap. -/
def xOverlapQ (bbox1 bbox2 : BBox) : ℚ :=
  max 0 (min bbox1.x1 bbox2.x1 - max bbox1.x0 bbox2.x0)

/-- The y_overlap quantity computed inside _boxes_overlap. -/
def yOverlapQ (bbox1 bbox2 : BBox) : ℚ :=
  max 0 (min bbox1.y1 bbox2.y1 - max bbox1.y0 bbox2.y0)

/-- Area of a bounding box, (x1 - x0) * (y1 - y0) as in _boxes_overlap. -/
def bboxArea (b : BBox) : ℚ := (b.x1 - b.x0) * (b.y1 - b.y0)

/-- Embedding of AdvancedPDFExtractor._boxes_overlap (advanced_pdf_service.py
lines 807-827): intersection area relative to the smaller box, compared to a
threshold, with an early false when either axis overlap is zero. -/
def _boxes_overlap (bbox1 bbox2 : BBox) (threshold : ℚ) : Bool :=
  let x_overlap := xOverlapQ bbox1 bbox2
  let y_overlap := yOverlapQ bbox1 bbox2
  if x_overlap = 0 ∨ y_overlap = 0 then false
  else
    let intersection_area := x_overlap * y_overlap
    decide (threshold ≤ intersection_area / min (bboxArea bbox1) (bboxArea bbox2))

/-- The overlap_ratio quantity of _boxes_overlap as a total rational
expression (division by zero is 0 in ℚ). -/
def overlapRatioQ (bbox1 bbox2 : BBox) : ℚ :=
  xOverlapQ bbox1 bbox2 * yOverlapQ bbox1 bbox2 /
    min (bboxArea bbox1) (bboxArea bbox2)

/-- One detected table dictionary: rows of cell strings, bounding box,
row/column counts and the detection-strategy discriminator stored under
the key named type in the source. -/
structure TableT where
  rows : List (List String)
  bbox : BBox
  num_rows : ℕ
  num_cols : ℕ
  type : String
  deriving DecidableEq

/-- Embedding of the merge loop of AdvancedPDFExtractor._extract_tables
(advanced_pdf_service.py lines 491-522): the accumulator starts from the
line-strategy tables; each text-alignment table is appended only when it
does not overlap (threshold 0.5) any table already in the accumulator. -/
def mergeDetectedTables (tables_from_lines tables_from_text : List TableT) : List TableT :=
  tables_from_text.foldl
    (fun tables text_table =>
      if tables.any (fun existing_table =>
          _boxes_overlap text_table.bbox existing_table.bbox (1/2)) then tables
      else tables ++ [text_table])
    tables_from_lines

lemma boxes_overlap_eq (b1 b2 : BBox) (th : ℚ) :
    _boxes_overlap b1 b2 th =
      (!decide (xOverlapQ b1 b2 = 0) && !decide (yOverlapQ b1 b2 = 0) &&
        decide (th ≤ overlapRatioQ b1 b2)) := by
  unfold _boxes_overlap overlapRatioQ
  by_cases hx : xOverlapQ b1 b2 = 0
  · simp [hx]
  · by_cases hy : yOverlapQ b1 b2 = 0
    · simp [hx, hy]
    · simp [hx, hy]

lemma mergeDetectedTables_cons (L : List TableT) (t : TableT) (ts : List TableT) :
    mergeDetectedTables L (t :: ts) =
      mergeDetectedTables
        (if L.any (fun e => _boxes_overlap t.bbox e.bbox (1/2)) then L else L ++ [t])
        ts := rfl

lemma merge_foldl_prefix (T : List TableT) :
    ∀ L : List TableT, ∃ rest, mergeDetectedTables L T = L ++ rest := by
  induction T with
  | nil => intro L; exact ⟨[], by simp [mergeDetectedTables]⟩
  | cons t ts ih =>
    intro L
    rw [mergeDetectedTables_cons]
    by_cases h : L.any (fun e => _boxes_overlap t.bbox e.bbox (1/2)) = true
    · rw [if_pos h]; exact ih L
    · rw [if_neg h]
      obtain ⟨r, hr⟩ := ih (L ++ [t])
      refine ⟨t :: r, ?_⟩
      rw [hr, List.append_assoc]
      rfl

/-- Claim C2: table deduplication by 50 percent overlap of the smaller box.
A text-alignment table is appended by the merge loop of _extract_tables
exactly when it does not overlap any already-kept line-derived table at
threshold 0.5 (the text strategy emits at most one table, so the singleton
case is the case the program runs); line tables are always kept; and
_boxes_overlap is true exactly when intersection_area / min(area1, area2)
reaches the threshold, equivalently (for positive areas) when twice the
intersection area reaches the smaller area, and is false whenever either
axis overlap is zero. -/
theorem table_dedup_overlap :
    (∀ (L : List TableT) (t : TableT),
      mergeDetectedTables L [t] =
        if L.any (fun l => _boxes_overlap t.bbox l.bbox (1/2)) then L else L ++ [t])
    ∧ (∀ (L T : List TableT), ∃ rest, mergeDetectedTables L T = L ++ rest)
    ∧ (∀ b1 b2 : BBox,
        (_boxes_overlap b1 b2 (1/2) = true ↔ 1/2 ≤ overlapRatioQ b1 b2))
    ∧ (∀ b1 b2 : BBox, 0 < bboxArea b1 → 0 < bboxArea b2 →
        (_boxes_overlap b1 b2 (1/2) = true ↔
          min (bboxArea b1) (bboxArea b2) ≤ 2 * (xOverlapQ b1 b2 * yOverlapQ b1 b2)))
    ∧ (∀ (b1 b2 : BBox) (th : ℚ),
        _boxes_overlap b1 b2 th =
          (!decide (xOverlapQ b1 b2 = 0) && !decide (yOverlapQ b1 b2 = 0) &&
            decide (th ≤ overlapRatioQ b1 b2))) := by
  refine ⟨?_, ?_, ?_, ?_, ?_⟩
  · intro L t
    simp [mergeDetectedTables]
  · intro L T
    exact merge_foldl_prefix T L
  · intro b1 b2
    rw [boxes_overlap_eq]
    by_cases hx : xOverlapQ b1 b2 = 0
    · have hr : overlapRatioQ b1 b2 = 0 := by rw [overlapRatioQ, hx, zero_mul, zero_div]
      rw [decide_eq_true hx]
      simp only [Bool.not_true, Bool.false_and, hr]
      constructor
      · intro h; exact (Bool.false_ne_true h).elim
      · intro h; exfalso; norm_num at h
    · by_cases hy : yOverlapQ b1 b2 = 0
      · have hr : overlapRatioQ b1 b2 = 0 := by
          rw [overlapRatioQ, hy, mul_zero, zero_div]
        rw [decide_eq_false hx, decide_eq_true hy]
        simp only [Bool.not_true, Bool.not_false, Bool.true_and, Bool.false_and, hr]
        constructor
        · intro h; exact (Bool.false_ne_true h).elim
        · intro h; exfalso; norm_num at h
      · rw [decide_eq_false hx, decide_eq_false hy]
        simp only [Bool.not_false, Bool.true_and]
        exact ⟨of_decide_eq_true, decide_eq_true⟩
  · intro b1 b2 ha1 ha2
    have hmin : 0 < min (bboxArea b1) (bboxArea b2) := lt_min ha1 ha2
    rw [boxes_overlap_eq]
    by_cases hx : xOverlapQ b1 b2 = 0
    · rw [decide_eq_true hx]
      simp only [Bool.not_true, Bool.false_and]
      constructor
      · intro h; exact (Bool.false_ne_true h).elim
      · intro h
        exfalso
        rw [hx] at h
        have h0 : (2 : ℚ) * (0 * yOverlapQ b1 b2) = 0 := by ring
        rw [h0] at h
        exact absurd h (not_le.mpr hmin)
    · by_cases hy : yOverlapQ b1 b2 = 0
      · rw [decide_eq_false hx, decide_eq_true hy]
        simp only [Bool.not_true, Bool.not_false, Bool.true_and, Bool.false_and]
        constructor
        · intro h; exact (Bool.false_ne_true h).elim
        · intro h
          exfalso
          rw [hy] at h
          have h0 : (2 : ℚ) * (xOverlapQ b1 b2 * 0) = 0 := by ring
          rw [h0] at h
          exact absurd h (not_le.mpr hmin)
      · rw [decide_eq_false hx, decide_eq_false hy]
        simp only [Bool.not_false, Bool.true_and]
        have hiff : (1/2 : ℚ) ≤ overlapRatioQ b1 b2 ↔
            min (bboxArea b1) (bboxArea b2) ≤ 2 * (xOverlapQ b1 b2 * yOverlapQ b1 b2) := by
          rw [overlapRatioQ, le_div_iff₀ hmin]
          constructor <;> intro h <;> linarith
        exact Iff.trans ⟨of_decide_eq_true, decide_eq_true⟩ hiff
  · intro b1 b2 th
    exact boxes_overlap_eq b1 b2 th

/-- Witness for C2: two unit-separated boxes overlapping on a 6 by 6 region,
smaller area 36, intersection 36, ratio 1 at threshold 0.5; and the
two-box merge keeps both tables when the overlap is below 50 percent. -/
theorem table_dedup_overlap_witness :
    (_boxes_overlap ⟨0, 0, 6, 6⟩ ⟨0, 0, 10, 10⟩ (1/2) = true ↔
      min (bboxArea ⟨0, 0, 6, 6⟩) (bboxArea ⟨0, 0, 10, 10⟩) ≤
        2 * (xOverlapQ ⟨0, 0, 6, 6⟩ ⟨0, 0, 10, 10⟩ * yOverlapQ ⟨0, 0, 6, 6⟩ ⟨0, 0, 10, 10⟩)) ∧
    _boxes_overlap ⟨0, 0, 6, 6⟩ ⟨0, 0, 10, 10⟩ (1/2) = true := by
  have h := table_dedup_overlap.2.2.2.1 ⟨0, 0, 6, 6⟩ ⟨0, 0, 10, 10⟩
    (by norm_num [bboxArea]) (by norm_num [bboxArea])
  refine ⟨h, h.mpr ?_⟩
  norm_num [bboxArea, xOverlapQ, yOverlapQ, min_def, max_def]

/-- Counterexample for C8: the boxes A = [0,0,4,4] and B = [4,0,10,10] touch
at x = 4, hence have zero overlap area, yet A lies inside B once B is
expanded by the 5 point slack, so _is_inside returns true. -/
theorem bbox_predicates_cex :
    xOverlapQ ⟨0, 0, 4, 4⟩ ⟨4, 0, 10, 10⟩ * yOverlapQ ⟨0, 0, 4, 4⟩ ⟨4, 0, 10, 10⟩ = 0
    ∧ _is_inside ⟨0, 0, 4, 4⟩ ⟨4, 0, 10, 10⟩ = true
    ∧ _boxes_overlap ⟨0, 0, 4, 4⟩ ⟨4, 0, 10, 10⟩ (1/2) = false := by
  have hx : xOverlapQ ⟨0, 0, 4, 4⟩ ⟨4, 0, 10, 10⟩ = 0 := by
    norm_num [xOverlapQ, min_def, max_def]
  refine ⟨by rw [hx]; ring, ?_, ?_⟩
  · norm_num [_is_inside]
  · rw [boxes_overlap_eq, hx]
    simp

/-- Claim C8 (amended): whenever A is enclosed by B with at most 5 points of
slack on each side, _is_inside A B is true; whenever the overlap area is
zero, the overlap ratio is 0 and _boxes_overlap is false.  The original
claim also asserted that _is_inside is false for every zero-overlap pair;
that conjunct is refuted by bbox_predicates_cex (boxes touching within the
slack) and is dropped here. -/
theorem bbox_predicates_amended :
    (∀ A B : BBox, B.x0 - 5 ≤ A.x0 → B.y0 - 5 ≤ A.y0 →
      A.x1 ≤ B.x1 + 5 → A.y1 ≤ B.y1 + 5 → _is_inside A B = true)
    ∧ (∀ A B : BBox, xOverlapQ A B * yOverlapQ A B = 0 →
        overlapRatioQ A B = 0 ∧ ∀ th : ℚ, _boxes_overlap A B th = false) := by
  constructor
  · intro A B h1 h2 h3 h4
    simp [_is_inside, h1, h2, h3, h4]
  · intro A B h
    have hz : xOverlapQ A B = 0 ∨ yOverlapQ A B = 0 := mul_eq_zero.mp h
    constructor
    · rw [overlapRatioQ]
      rcases hz with hx | hy
      · rw [hx, zero_mul, zero_div]
      · rw [hy, mul_zero, zero_div]
    · intro th
      rw [boxes_overlap_eq]
      rcases hz with hx | hy
      · rw [decide_eq_true hx]
        simp only [Bool.not_true, Bool.false_and]
      · rw [decide_eq_true hy]
        simp only [Bool.not_true, Bool.and_false, Bool.false_and]

/-- Witness for C8 (amended): the box [2,2,8,8] sits inside [0,0,10,10]
within the slack, and the disjoint pair [0,0,1,1], [5,5,9,9] has zero
overlap area, ratio 0, and a false overlap test at threshold 0.5. -/
theorem bbox_predicates_amended_witness :
    _is_inside ⟨2, 2, 8, 8⟩ ⟨0, 0, 10, 10⟩ = true
    ∧ overlapRatioQ ⟨0, 0, 1, 1⟩ ⟨5, 5, 9, 9⟩ = 0
    ∧ _boxes_overlap ⟨0, 0, 1, 1⟩ ⟨5, 5, 9, 9⟩ (1/2) = false := by
  have h2 := bbox_predicates_amended.2 ⟨0, 0, 1, 1⟩ ⟨5, 5, 9, 9⟩
    (by norm_num [xOverlapQ, yOverlapQ, min_def, max_def])
  exact ⟨bbox_predicates_amended.1 ⟨2, 2, 8, 8⟩ ⟨0, 0, 10, 10⟩
    (by norm_num) (by norm_num) (by norm_num) (by norm_num), h2.1, h2.2 (1/2)⟩

/-- One styled text span as produced by _extract_formatted_text: the text,
the size (Option models a dictionary lookup without default; extraction
itself always stores a size, defaulting to 12), the raw font name, bold and
italic flags, the decoded hex color, and the bounding box. -/
structure Span where
  text : String
  size : Option ℚ
  font : String
  bold : Bool
  italic : Bool
  color : String
  bbox : BBox
  deriving DecidableEq

/-- One line of spans, with the wmode and dir fields the source copies
from PyMuPDF. -/
structure Line where
  bbox : BBox
  wmode : ℕ
  dir : ℚ × ℚ
  spans : List Span
  deriving DecidableEq

/-- One text block: a bounding box and its lines. -/
structure Block where
  bbox : BBox
  lines : List Line
  deriving DecidableEq

/-- One extracted image dictionary of _extract_images: data URI, pixel
dimensions, placement box, format extension, xref and 1-based page. -/
structure Img where
  data : String
  width : ℤ
  height : ℤ
  bbox : BBox
  ext : String
  xref : ℕ
  page : ℕ
  deriving DecidableEq

/-- One entry of the all_elements list built in extract_full_document:
a tagged union over text blocks, images and tables, carrying the y sort
key (bbox[1]) and the bbox stored alongside the data. -/
inductive Elem where
  | textE (block : Block) (y : ℚ) (bbox : BBox)
  | imageE (img : Img) (y : ℚ) (bbox : BBox)
  | tableE (table : TableT) (y : ℚ) (bbox : BBox)
  deriving DecidableEq

/-- The y key of an element. -/
def elemY : Elem → ℚ
  | .textE _ y _ => y
  | .imageE _ y _ => y
  | .tableE _ y _ => y

/-- The bbox stored on an element. -/
def elemBBox : Elem → BBox
  | .textE _ _ b => b
  | .imageE _ _ b => b
  | .tableE _ _ b => b

/-- Whether the element has type text. -/
def isTextElem : Elem → Bool
  | .textE _ _ _ => true
  | _ => false

/-- Whether the element has type table. -/
def isTableElem : Elem → Bool
  | .tableE _ _ _ => true
  | _ => false

/-- The all_elements list of extract_full_document (lines 148-188): text
blocks, then images, then tables, each tagged with y = bbox[1]. -/
def allElems (text_blocks : List Block) (images : List Img) (tables : List TableT) :
    List Elem :=
  text_blocks.map (fun b => Elem.textE b b.bbox.y0 b.bbox)
    ++ images.map (fun i => Elem.imageE i i.bbox.y0 i.bbox)
    ++ tables.map (fun t => Elem.tableE t t.bbox.y0 t.bbox)

/-- Comparison used by the sort on line 192: ascending y key. -/
def elemLe (a b : Elem) : Bool := decide (elemY a ≤ elemY b)

/-- Insertion step of the stable sort modelling Python list.sort (Timsort is
stable; a stable sort by a fixed key is unique, so insertion sort is an
exact model of its result). -/
def sortInsertElem (a : Elem) : List Elem → List Elem
  | [] => [a]
  | b :: l => if elemLe a b then a :: b :: l else b :: sortInsertElem a l

/-- Stable sort of the element list by y, modelling
all_elements.sort(key=lambda el: el.get('y', 0)). -/
def sortElems : List Elem → List Elem
  | [] => []
  | a :: l => sortInsertElem a (sortElems l)

/-- The filtering loop of extract_full_document (lines 197-217): walk the
sorted list, dropping each text element that is inside some table element
of the same list, keeping every other element. -/
def filterElemsLoop (all_elements : List Elem) : List Elem :=
  all_elements.foldl
    (fun filtered_elements element =>
      if isTextElem element then
        if all_elements.any (fun other =>
            isTableElem other && _is_inside (elemBBox element) (elemBBox other)) then
          filtered_elements
        else filtered_elements ++ [element]
      else filtered_elements ++ [element])
    []

/-- The elements value stored on each page dictionary: build, sort, filter
(extract_full_document lines 147-217). -/
def composeElements (text_blocks : List Block) (images : List Img)
    (tables : List TableT) : List Elem :=
  filterElemsLoop (sortElems (allElems text_blocks images tables))

lemma foldl_append_filter (q : Elem → Bool) :
    ∀ (l acc : List Elem),
      l.foldl (fun a e => if q e then a ++ [e] else a) acc = acc ++ l.filter q := by
  intro l
  induction l with
  | nil => intro acc; simp
  | cons e es ih =>
    intro acc
    by_cases h : q e = true
    · rw [List.foldl_cons, if_pos h, ih, List.filter_cons_of_pos h, List.append_assoc]
      rfl
    · rw [List.foldl_cons, if_neg h, ih,
        List.filter_cons_of_neg (by simpa using h)]

lemma filterElemsLoop_eq_filter (all_elements : List Elem) :
    filterElemsLoop all_elements =
      all_elements.filter (fun e =>
        !(isTextElem e && all_elements.any (fun o =>
          isTableElem o && _is_inside (elemBBox e) (elemBBox o)))) := by
  have hstep :
      (fun (a : List Elem) (e : Elem) =>
        if isTextElem e then
          if all_elements.any (fun o =>
              isTableElem o && _is_inside (elemBBox e) (elemBBox o)) then a
          else a ++ [e]
        else a ++ [e])
      = (fun (a : List Elem) (e : Elem) =>
          if (!(isTextElem e && all_elements.any (fun o =>
              isTableElem o && _is_inside (elemBBox e) (elemBBox o)))) then a ++ [e]
          else a) := by
    funext a e
    by_cases ht : isTextElem e = true
    · by_cases ha : all_elements.any (fun o =>
          isTableElem o && _is_inside (elemBBox e) (elemBBox o)) = true
      · simp [ht, ha]
      · simp [ht, Bool.not_eq_true _ ▸ ha]
    · simp [Bool.not_eq_true _ ▸ ht]
  rw [filterElemsLoop, hstep, foldl_append_filter]
  rfl

lemma sortInsertElem_perm (a : Elem) (l : List Elem) :
    (sortInsertElem a l).Perm (a :: l) := by
  induction l with
  | nil => simp [sortInsertElem]
  | cons b bs ih =>
    rw [sortInsertElem]
    by_cases h : elemLe a b = true
    · rw [if_pos h]
    · rw [if_neg h]
      exact (ih.cons b).trans (List.Perm.swap a b bs)

lemma sortElems_perm (l : List Elem) : (sortElems l).Perm l := by
  induction l with
  | nil => simp [sortElems]
  | cons a l ih =>
    rw [sortElems]
    exact (sortInsertElem_perm a (sortElems l)).trans (ih.cons a)

lemma sortInsertElem_pairwise (a : Elem) (l : List Elem)
    (hl : List.Pairwise (fun x y => elemY x ≤ elemY y) l) :
    List.Pairwise (fun x y => elemY x ≤ elemY y) (sortInsertElem a l) := by
  induction l with
  | nil => simp [sortInsertElem]
  | cons b bs ih =>
    rcases List.pairwise_cons.mp hl with ⟨hb, hbs⟩
    rw [sortInsertElem]
    by_cases h : elemLe a b = true
    · rw [if_pos h]
      have hab : elemY a ≤ elemY b := of_decide_eq_true h
      refine List.pairwise_cons.mpr ⟨?_, hl⟩
      intro x hx
      rcases List.mem_cons.mp hx with hxb | hxbs
      · exact hxb ▸ hab
      · exact le_trans hab (hb x hxbs)
    · rw [if_neg h]
      have hba : elemY b ≤ elemY a := by
        have hnle : ¬ elemY a ≤ elemY b := fun hle => h (decide_eq_true hle)
        exact le_of_lt (lt_of_not_le hnle)
      refine List.pairwise_cons.mpr ⟨?_, ih hbs⟩
      intro x hx
      rcases List.mem_cons.mp ((sortInsertElem_perm a bs).mem_iff.mp hx) with hxa | hxbs
      · exact hxa ▸ hba
      · exact hb x hxbs

lemma sortElems_pairwise (l : List Elem) :
    List.Pairwise (fun x y => elemY x ≤ elemY y) (sortElems l) := by
  induction l with
  | nil => simp [sortElems]
  | cons a l ih => exact sortInsertElem_pairwise a (sortElems l) ih

lemma filter_key_cons (c : ℚ) (a : Elem) (l : List Elem) :
    (a :: l).filter (fun e => decide (elemY e = c)) =
      if elemY a = c then a :: l.filter (fun e => decide (elemY e = c))
      else l.filter (fun e => decide (elemY e = c)) := by
  by_cases hc : elemY a = c
  · simp [List.filter_cons, hc]
  · simp [List.filter_cons, hc]

lemma filter_sortInsertElem (a : Elem) (c : ℚ) (l : List Elem) :
    (sortInsertElem a l).filter (fun e => decide (elemY e = c)) =
      if elemY a = c then a :: l.filter (fun e => decide (elemY e = c))
      else l.filter (fun e => decide (elemY e = c)) := by
  induction l with
  | nil => exact filter_key_cons c a []
  | cons b bs ih =>
    rw [sortInsertElem]
    by_cases h : elemLe a b = true
    · rw [if_pos h]
      exact filter_key_cons c a (b :: bs)
    · rw [if_neg h]
      have hba : elemY b < elemY a :=
        lt_of_not_le (fun hle => h (decide_eq_true hle))
      rw [filter_key_cons, ih, filter_key_cons]
      by_cases hbc : elemY b = c
      · have hac : ¬ elemY a = c := by
          intro hac
          rw [hbc, hac] at hba
          exact lt_irrefl c hba
        simp [hbc, hac]
      · by_cases hac : elemY a = c
        · simp [hbc, hac]
        · simp [hbc, hac]

lemma sortElems_stable (c : ℚ) (l : List Elem) :
    (sortElems l).filter (fun e => decide (elemY e = c)) =
      l.filter (fun e => decide (elemY e = c)) := by
  induction l with
  | nil => simp [sortElems]
  | cons a l ih =>
    rw [sortElems, filter_sortInsertElem, ih, filter_key_cons]

lemma any_map_eq {α β : Type} (f : α → β) (l : List α) (p : β → Bool) :
    (l.map f).any p = l.any (fun a => p (f a)) := by
  induction l with
  | nil => rfl
  | cons x xs ih => simp [List.map_cons, List.any_cons, ih]

lemma allElems_any_table (text_blocks : List Block) (images : List Img)
    (tables : List TableT) (bb : BBox) :
    (allElems text_blocks images tables).any (fun o =>
        isTableElem o && _is_inside bb (elemBBox o)) =
      tables.any (fun t => _is_inside bb t.bbox) := by
  rw [allElems, List.any_append, List.any_append, any_map_eq, any_map_eq, any_map_eq]
  have h1 : text_blocks.any (fun b =>
      isTableElem (Elem.textE b b.bbox.y0 b.bbox) &&
        _is_inside bb (elemBBox (Elem.textE b b.bbox.y0 b.bbox))) = false := by
    rw [List.any_eq_false]
    intro b _
    simp [isTableElem]
  have h2 : images.any (fun i =>
      isTableElem (Elem.imageE i i.bbox.y0 i.bbox) &&
        _is_inside bb (elemBBox (Elem.imageE i i.bbox.y0 i.bbox))) = false := by
    rw [List.any_eq_false]
    intro i _
    simp [isTableElem]
  have h3 : tables.any (fun t =>
      isTableElem (Elem.tableE t t.bbox.y0 t.bbox) &&
        _is_inside bb (elemBBox (Elem.tableE t t.bbox.y0 t.bbox))) =
      tables.any (fun t => _is_inside bb t.bbox) := by
    have hfun : (fun t : TableT =>
        isTableElem (Elem.tableE t t.bbox.y0 t.bbox) &&
          _is_inside bb (elemBBox (Elem.tableE t t.bbox.y0 t.bbox))) =
        fun t => _is_inside bb t.bbox := by
      funext t
      simp [isTableElem, elemBBox]
    rw [hfun]
  rw [h1, h2, h3]
  simp

/-- Claim C4: reading-order composition.  The elements list produced for a
page equals the stable ascending sort by the top-y key of the tagged
text/image/table elements, filtered so that exactly the text elements whose
bbox is inside some table bbox (with the 5 point slack of _is_inside) are
dropped; the sorted list is ascending in y, is a permutation of the
original, and is stable (elements with any fixed y key keep their original
relative order, which is text blocks, then images, then tables). -/
theorem reading_order_composition (text_blocks : List Block) (images : List Img)
    (tables : List TableT) :
    composeElements text_blocks images tables
      = (sortElems (allElems text_blocks images tables)).filter (fun e =>
          !(isTextElem e && tables.any (fun t => _is_inside (elemBBox e) t.bbox)))
    ∧ List.Pairwise (fun a b => elemY a ≤ elemY b)
        (sortElems (allElems text_blocks images tables))
    ∧ (sortElems (allElems text_blocks images tables)).Perm
        (allElems text_blocks images tables)
    ∧ ∀ c : ℚ,
        (sortElems (allElems text_blocks images tables)).filter
            (fun e => decide (elemY e = c))
          = (allElems text_blocks images tables).filter
              (fun e => decide (elemY e = c)) := by
  refine ⟨?_, sortElems_pairwise _, sortElems_perm _, fun c => sortElems_stable c _⟩
  rw [composeElements, filterElemsLoop_eq_filter]
  apply List.filter_congr
  intro e he
  have hany : (sortElems (allElems text_blocks images tables)).any (fun o =>
      isTableElem o && _is_inside (elemBBox e) (elemBBox o)) =
      (allElems text_blocks images tables).any (fun o =>
        isTableElem o && _is_inside (elemBBox e) (elemBBox o)) := by
    rcases h : (allElems text_blocks images tables).any (fun o =>
        isTableElem o && _is_inside (elemBBox e) (elemBBox o)) with _ | _
    · rw [List.any_eq_false] at h ⊢
      intro x hx
      exact h x ((sortElems_perm _).mem_iff.mp hx)
    · rw [List.any_eq_true] at h ⊢
      obtain ⟨x, hx, hpx⟩ := h
      exact ⟨x, (sortElems_perm _).mem_iff.mpr hx, hpx⟩
  rw [hany, allElems_any_table]

/-- The external sub-steps of one page of extract_full_document: the results
of _extract_formatted_text, _extract_images, _extract_tables and the page
rect query, each an Except because the source wraps each in its own
try/except (advanced_pdf_service.py lines 117-145 and 219-226). -/
structure PageInput where
  textR : Except String (List Block)
  imagesR : Except String (List Img)
  tablesR : Except String (List TableT)
  dimsR : Except String (ℚ × ℚ)

/-- The whole-document input: pages plus the metadata query result
(lines 258-265). -/
structure DocInput where
  pages : List PageInput
  metadataR : Except String (List (String × String))

/-- One per-page dictionary of the extraction result (lines 228-236).  The
error-page branch of lines 242-256 is unreachable in the embedding because
every statement of the page body that can raise is itself wrapped in its
own try/except, so no error field is modelled. -/
structure PageData where
  page_number : ℕ
  text_blocks : List Block
  images : List Img
  tables : List TableT
  elements : List Elem
  width : ℚ
  height : ℚ
  deriving DecidableEq

/-- The stats dictionary of AdvancedPDFExtractor (lines 37-44). -/
structure ExtractStats where
  pages_extracted : ℕ
  text_blocks : ℕ
  images_extracted : ℕ
  tables_detected : ℕ
  errors : List String
  warnings : List String
  deriving DecidableEq

/-- The dictionary returned by extract_full_document (lines 280-286);
extraction_time is wall-clock noise and is not modelled. -/
structure ExtractResult where
  pages : List PageData
  total_pages : ℕ
  metadata : List (String × String)
  stats : ExtractStats
  deriving DecidableEq

/-- text_blocks for one page: the extracted list, or [] when the text
sub-step raised (lines 118-125). -/
def pageTextBlocks (inp : PageInput) : List Block :=
  match inp.textR with
  | .ok bs => bs
  | .error _ => []

/-- images for one page, or [] when the image sub-step raised. -/
def pageImages (inp : PageInput) : List Img :=
  match inp.imagesR with
  | .ok is => is
  | .error _ => []

/-- tables for one page, or [] when the table sub-step raised. -/
def pageTables (inp : PageInput) : List TableT :=
  match inp.tablesR with
  | .ok ts => ts
  | .error _ => []

/-- Page dimensions, defaulting to A4 595 x 842 when the rect query raised
(lines 219-226). -/
def pageDims (inp : PageInput) : ℚ × ℚ :=
  match inp.dimsR with
  | .ok wh => wh
  | .error _ => (595, 842)

/-- Warning strings a single page appends to stats (lines 125, 135, 145),
in sub-step order. -/
def pageWarnings (i : ℕ) (inp : PageInput) : List String :=
  (match inp.textR with
    | .error _ => [s!"Page {i + 1}: Échec extraction texte"]
    | .ok _ => [])
  ++ (match inp.imagesR with
    | .error _ => [s!"Page {i + 1}: Échec extraction images"]
    | .ok _ => [])
  ++ (match inp.tablesR with
    | .error _ => [s!"Page {i + 1}: Échec extraction tableaux"]
    | .ok _ => [])

/-- The page dictionary built by one iteration of the page loop with
0-based index i. -/
def processPage (i : ℕ) (inp : PageInput) : PageData :=
  { page_number := i + 1
    text_blocks := pageTextBlocks inp
    images := pageImages inp
    tables := pageTables inp
    elements := composeElements (pageTextBlocks inp) (pageImages inp) (pageTables inp)
    width := (pageDims inp).1
    height := (pageDims inp).2 }

/-- The pages_data list accumulated by the page loop, starting at 0-based
index i. -/
def extractPagesData : ℕ → List PageInput → List PageData
  | _, [] => []
  | i, inp :: rest => processPage i inp :: extractPagesData (i + 1) rest

/-- The warnings accumulated by the page loop, in page order. -/
def extractWarnings : ℕ → List PageInput → List String
  | _, [] => []
  | i, inp :: rest => pageWarnings i inp ++ extractWarnings (i + 1) rest

/-- Embedding of AdvancedPDFExtractor.extract_full_document
(advanced_pdf_service.py lines 93-293).  The outer try re-raises only when
the loop body escapes, which cannot happen because every raising sub-step
is individually caught, so the embedding always returns Except.ok; the
per-page counters accumulate exactly the lengths the source adds. -/
def extract_full_document (d : DocInput) : Except String ExtractResult :=
  let pages_data := extractPagesData 0 d.pages
  Except.ok
    { pages := pages_data
      total_pages := d.pages.length
      metadata := match d.metadataR with
        | .ok m => m
        | .error _ => []
      stats :=
        { pages_extracted := d.pages.length
          text_blocks := (pages_data.map (fun p => p.text_blocks.length)).sum
          images_extracted := (pages_data.map (fun p => p.images.length)).sum
          tables_detected := (pages_data.map (fun p => p.tables.length)).sum
          errors := []
          warnings := extractWarnings 0 d.pages ++
            (match d.metadataR with
              | .error _ => ["Métadonnées non disponibles"]
              | .ok _ => []) } }

lemma extractPagesData_length : ∀ (l : List PageInput) (i : ℕ),
    (extractPagesData i l).length = l.length := by
  intro l
  induction l with
  | nil => intro i; rfl
  | cons inp rest ih => intro i; simp [extractPagesData, ih]

lemma extractPagesData_get : ∀ (l : List PageInput) (i j : ℕ),
    (extractPagesData i l).get? j = (l.get? j).map (fun inp => processPage (i + j) inp) := by
  intro l
  induction l with
  | nil => intro i j; rfl
  | cons inp rest ih =>
    intro i j
    cases j with
    | zero => rfl
    | succ j =>
      rw [extractPagesData]
      show (extractPagesData (i + 1) rest).get? j = _
      rw [ih]
      have : i + 1 + j = i + (j + 1) := by omega
      rw [this]
      rfl

lemma extractWarnings_mem : ∀ (l : List PageInput) (i j : ℕ) (inp : PageInput),
    l.get? j = some inp → ∀ w ∈ pageWarnings (i + j) inp, w ∈ extractWarnings i l := by
  intro l
  induction l with
  | nil => intro i j inp h; cases h
  | cons a rest ih =>
    intro i j inp h w hw
    cases j with
    | zero =>
      rw [List.get?_cons_zero] at h
      injection h with h
      rw [extractWarnings]
      apply List.mem_append_left
      rw [h]
      simpa using hw
    | succ j =>
      rw [List.get?_cons_succ] at h
      rw [extractWarnings]
      apply List.mem_append_right
      have heq : i + 1 + j = i + (j + 1) := by omega
      exact ih (i + 1) j inp h w (heq ▸ hw)

/-- Claim C1: per-page failure resilience of extraction.  For any document
input and any page whose sub-steps may individually raise,
extract_full_document returns Except.ok (never raises), keeps one page
entry per input page, numbers the page correctly, turns a raising text,
image or table sub-step into an empty list plus the matching warning
string appended to the statistics, and keeps the successful sub-steps of
the same page: in particular a page whose text extraction raised but whose
image extraction succeeded still carries exactly those images. -/
theorem page_failure_resilience (d : DocInput) (i : ℕ) (inp : PageInput)
    (h : d.pages.get? i = some inp) :
    ∃ out, extract_full_document d = Except.ok out
      ∧ out.pages.length = d.pages.length
      ∧ ∃ page, out.pages.get? i = some page
        ∧ page.page_number = i + 1
        ∧ (∀ e, inp.textR = Except.error e →
            page.text_blocks = [] ∧
              s!"Page {i + 1}: Échec extraction texte" ∈ out.stats.warnings)
        ∧ (∀ bs, inp.textR = Except.ok bs → page.text_blocks = bs)
        ∧ (∀ e, inp.imagesR = Except.error e →
            page.images = [] ∧
              s!"Page {i + 1}: Échec extraction images" ∈ out.stats.warnings)
        ∧ (∀ imgs, inp.imagesR = Except.ok imgs → page.images = imgs)
        ∧ (∀ e, inp.tablesR = Except.error e →
            page.tables = [] ∧
              s!"Page {i + 1}: Échec extraction tableaux" ∈ out.stats.warnings)
        ∧ (∀ ts, inp.tablesR = Except.ok ts → page.tables = ts) := by
  refine ⟨_, rfl, ?_, ?_⟩
  · exact extractPagesData_length d.pages 0
  · refine ⟨processPage i inp, ?_, rfl, ?_, ?_, ?_, ?_, ?_, ?_⟩
    · show (extractPagesData 0 d.pages).get? i = some (processPage i inp)
      rw [extractPagesData_get d.pages 0 i, h]
      simp
    · intro e he
      refine ⟨by simp [processPage, pageTextBlocks, he], ?_⟩
      apply List.mem_append_left
      refine extractWarnings_mem d.pages 0 i inp h _ ?_
      rw [Nat.zero_add, pageWarnings, he]
      simp
    · intro bs hbs
      simp [processPage, pageTextBlocks, hbs]
    · intro e he
      refine ⟨by simp [processPage, pageImages, he], ?_⟩
      apply List.mem_append_left
      refine extractWarnings_mem d.pages 0 i inp h _ ?_
      rw [Nat.zero_add, pageWarnings, he]
      simp
    · intro imgs himgs
      simp [processPage, pageImages, himgs]
    · intro e he
      refine ⟨by simp [processPage, pageTables, he], ?_⟩
      apply List.mem_append_left
      refine extractWarnings_mem d.pages 0 i inp h _ ?_
      rw [Nat.zero_add, pageWarnings, he]
      simp
    · intro ts hts
      simp [processPage, pageTables, hts]

/-- Concrete image used by the C1 witness. -/
def c1Img : Img :=
  { data := "data:image/png;base64,AAAA", width := 100, height := 100,
    bbox := ⟨0, 50, 100, 150⟩, ext := "png", xref := 7, page := 1 }

/-- Concrete page input for the C1 witness: text extraction raises, image
extraction succeeds, table extraction succeeds with no tables. -/
def c1Page : PageInput :=
  { textR := Except.error "boom", imagesR := Except.ok [c1Img],
    tablesR := Except.ok [], dimsR := Except.ok (595, 842) }

/-- Concrete document input for the C1 witness. -/
def c1Doc : DocInput := { pages := [c1Page], metadataR := Except.ok [] }

/-- Witness for C1 at a one-page document whose text sub-step raises while
the image sub-step succeeds. -/
theorem page_failure_resilience_witness :
    ∃ out, extract_full_document c1Doc = Except.ok out
      ∧ out.pages.length = c1Doc.pages.length
      ∧ ∃ page, out.pages.get? 0 = some page
        ∧ page.page_number = 0 + 1
        ∧ (∀ e, c1Page.textR = Except.error e →
            page.text_blocks = [] ∧
              s!"Page {0 + 1}: Échec extraction texte" ∈ out.stats.warnings)
        ∧ (∀ bs, c1Page.textR = Except.ok bs → page.text_blocks = bs)
        ∧ (∀ e, c1Page.imagesR = Except.error e →
            page.images = [] ∧
              s!"Page {0 + 1}: Échec extraction images" ∈ out.stats.warnings)
        ∧ (∀ imgs, c1Page.imagesR = Except.ok imgs → page.images = imgs)
        ∧ (∀ e, c1Page.tablesR = Except.error e →
            page.tables = [] ∧
              s!"Page {0 + 1}: Échec extraction tableaux" ∈ out.stats.warnings)
        ∧ (∀ ts, c1Page.tablesR = Except.ok ts → page.tables = ts) :=
  page_failure_resilience c1Doc 0 c1Page rfl

/-- Python round() (banker's rounding, half to even) followed by int(), as
used for the size attribute of convert_to_quill_delta. -/
def pyRound (q : ℚ) : ℤ :=
  let f := ⌊q⌋
  if q - f < 1/2 then f
  else if 1/2 < q - f then f + 1
  else if f % 2 = 0 then f else f + 1

/-- Python int() on a float: truncation toward zero. -/
def ratTrunc (q : ℚ) : ℤ := if 0 ≤ q then ⌊q⌋ else -⌊-q⌋

/-- Helper of pySplitChar: split a character list at a separator. -/
def splitCharsAux (c : Char) : List Char → List Char → List (List Char)
  | [], acc => [acc.reverse]
  | x :: xs, acc =>
    if x = c then acc.reverse :: splitCharsAux c xs []
    else splitCharsAux c xs (x :: acc)

/-- Python str.split(sep) for a one-character separator (always returns a
non-empty list; the empty string splits to [""]). -/
def pySplitChar (s : String) (c : Char) : List String :=
  (splitCharsAux c s.data []).map String.mk

/-- The base font name font.split(sep1)[-1].split(sep2)[0] computed at
advanced_pdf_service.py line 964 (and again at line 1237). -/
def pyFontBase (font : String) : String :=
  (pySplitChar ((pySplitChar font '+').getLastD "") '-').headD ""

/-- Truthiness of the size value read from the span dictionary: absent or
zero is falsy, as in the Python test if size. -/
def sizeTruthy : Option ℚ → Bool
  | none => false
  | some q => decide (q ≠ 0)

/-- A Quill attribute value: the source stores booleans and strings. -/
inductive AttrVal where
  | boolV (b : Bool)
  | strV (s : String)
  deriving DecidableEq

/-- The insert payload of one Quill op: plain text or an embedded image. -/
inductive QuillInsert where
  | text (s : String)
  | image (src : String)
  deriving DecidableEq

/-- One Quill Delta insert operation; attributes is none exactly when the
source emits an op dictionary without an attributes key. -/
structure QuillOp where
  insert : QuillInsert
  attributes : Option (List (String × AttrVal)) := none
  deriving DecidableEq

/-- The returned Quill Delta document. -/
structure QuillDelta where
  ops : List QuillOp
  deriving DecidableEq

/-- The pdf_data argument of the two converters: the pages and total_pages
keys read from the extract_full_document result. -/
structure PdfData where
  pages : List PageData
  total_pages : ℕ

/-- The attributes dictionary built for one span in convert_to_quill_delta
(advanced_pdf_service.py lines 942-965), in insertion order: bold, italic,
non-default color, truthy size (rounded, in px), non-empty font (base
name). -/
def quillSpanAttrs (span : Span) : List (String × AttrVal) :=
  (if span.bold then [("bold", AttrVal.boolV true)] else [])
  ++ (if span.italic then [("italic", AttrVal.boolV true)] else [])
  ++ (if span.color ≠ "" ∧ span.color ≠ "#000000"
      then [("color", AttrVal.strV span.color)] else [])
  ++ (match span.size with
      | some q => if q ≠ 0 then [("size", AttrVal.strV (toString (pyRound q) ++ "px"))] else []
      | none => [])
  ++ (if span.font ≠ "" then [("font", AttrVal.strV (pyFontBase span.font))] else [])

/-- The ops emitted for one span (lines 937-976): nothing for empty text;
otherwise one insert, with the attributes key only when the attribute
dictionary is non-empty. -/
def quillSpanOps (span : Span) : List QuillOp :=
  if span.text = "" then []
  else
    let attributes := quillSpanAttrs span
    if attributes = [] then [{ insert := QuillInsert.text span.text }]
    else [{ insert := QuillInsert.text span.text, attributes := some attributes }]

/-- The ops emitted for one line: its span ops, then a newline when some
span contributed text (lines 935-980). -/
def quillLineOps (line : Line) : List QuillOp :=
  line.spans.flatMap quillSpanOps
  ++ (if line.spans.any (fun s => decide (s.text ≠ "")) then
        [{ insert := QuillInsert.text "\n" }] else [])

/-- The ops emitted for one block: its line ops, then a separating newline
when the block has lines (lines 933-984). -/
def quillBlockOps (block : Block) : List QuillOp :=
  block.lines.flatMap quillLineOps
  ++ (if block.lines.isEmpty then [] else [{ insert := QuillInsert.text "\n" }])

/-- The ops emitted for one image (lines 987-1010): the embed with width
and height attributes (scaled down to max 600 keeping the ratio), then a
newline. -/
def quillImageOps (img : Img) : List QuillOp :=
  let wh : ℤ × ℤ :=
    if img.width > 600 then
      (600, ratTrunc ((img.height : ℚ) * (600 / (img.width : ℚ))))
    else (img.width, img.height)
  [{ insert := QuillInsert.image img.data,
     attributes := some [("width", AttrVal.strV (toString wh.1)),
                         ("height", AttrVal.strV (toString wh.2))] },
   { insert := QuillInsert.text "\n" }]

/-- The ops emitted for one table (lines 1012-1029): a bold colored header
op whose text is the emoji marker line, then one op per row joining the
cells with a vertical-bar separator and a trailing newline, then a blank
line. -/
def quillTableOps (table : TableT) : List QuillOp :=
  [{ insert := QuillInsert.text "📊 Tableau détecté:\n",
     attributes := some [("bold", AttrVal.boolV true), ("color", AttrVal.strV "#4a5568")] }]
  ++ table.rows.map (fun row =>
      { insert := QuillInsert.text (String.intercalate " | " row ++ "\n") })
  ++ [{ insert := QuillInsert.text "\n" }]

/-- The inter-page divider (line 1033). -/
def pageSeparator : String := "\n" ++ String.mk (List.replicate 50 '─') ++ "\n\n"

/-- The ops emitted for one page of convert_to_quill_delta (lines 919-1033):
styled page header, text blocks, images, tables, then a divider unless this
is the last page. -/
def quillPageOps (total_pages : ℕ) (page : PageData) : List QuillOp :=
  [{ insert := QuillInsert.text ("Page " ++ toString page.page_number),
     attributes := some [("bold", AttrVal.boolV true), ("color", AttrVal.strV "#667eea"),
                         ("size", AttrVal.strV "16px")] },
   { insert := QuillInsert.text "\n", attributes := some [("align", AttrVal.strV "center")] },
   { insert := QuillInsert.text "\n" }]
  ++ page.text_blocks.flatMap quillBlockOps
  ++ page.images.flatMap quillImageOps
  ++ page.tables.flatMap quillTableOps
  ++ (if page.page_number < total_pages then [{ insert := QuillInsert.text pageSeparator }] else [])

/-- Embedding of PDFToEditableConverter.convert_to_quill_delta
(advanced_pdf_service.py lines 905-1035). -/
def convert_to_quill_delta (pdf_data : PdfData) : QuillDelta :=
  { ops := pdf_data.pages.flatMap (quillPageOps pdf_data.total_pages) }

/-- The span of the C3 counterexample: default styling in every respect the
claim lists, but carrying the font name Arial. -/
def c3Span : Span :=
  { text := "x", size := none, font := "Arial", bold := false, italic := false,
    color := "#000000", bbox := ⟨0, 0, 10, 10⟩ }

/-- The one-page document of the C3 counterexample. -/
def c3PageData : PageData :=
  { page_number := 1,
    text_blocks := [{ bbox := ⟨0, 0, 10, 10⟩,
                      lines := [{ bbox := ⟨0, 0, 10, 10⟩, wmode := 0, dir := (1, 0),
                                  spans := [c3Span] }] }],
    images := [], tables := [], elements := [], width := 595, height := 842 }

/-- The pdf_data of the C3 counterexample. -/
def c3Doc : PdfData := { pages := [c3PageData], total_pages := 1 }

/-- Counterexample for C3: c3Span is non-bold, non-italic, default black,
with no size and non-empty text, yet the op convert_to_quill_delta emits
for it (position 3, after the three page-header ops) carries an attributes
dictionary, namely the font attribute the claim omits. -/
theorem quill_attr_minimal_cex :
    (c3Span.text ≠ "" ∧ c3Span.bold = false ∧ c3Span.italic = false ∧
      c3Span.color = "#000000" ∧ c3Span.size = none)
    ∧ (convert_to_quill_delta c3Doc).ops.get? 3 =
        some { insert := QuillInsert.text "x",
               attributes := some [("font", AttrVal.strV "Arial")] } := by
  refine ⟨⟨by decide, rfl, rfl, rfl, rfl⟩, ?_⟩
  rfl

/-- Claim C3 (amended): attribute minimality of rich-text conversion.  A
span with non-empty text that is non-bold, non-italic, default black, with
falsy size AND empty font name produces exactly the op with no attributes
key; the empty-font condition is forced by quill_attr_minimal_cex, since
the source also emits a font attribute for any non-empty font name.  The
op is emitted into the converted ops of any document containing the
span. -/
theorem quill_attr_minimal_amended (pdf_data : PdfData) (page : PageData)
    (block : Block) (line : Line) (span : Span)
    (hp : page ∈ pdf_data.pages) (hb : block ∈ page.text_blocks)
    (hl : line ∈ block.lines) (hs : span ∈ line.spans)
    (htext : span.text ≠ "") (hbold : span.bold = false) (hital : span.italic = false)
    (hcolor : span.color = "#000000") (hsize : sizeTruthy span.size = false)
    (hfont : span.font = "") :
    quillSpanOps span = [{ insert := QuillInsert.text span.text, attributes := none }]
    ∧ { insert := QuillInsert.text span.text, attributes := none }
        ∈ (convert_to_quill_delta pdf_data).ops := by
  have hattrs : quillSpanAttrs span = [] := by
    rw [quillSpanAttrs, hbold, hital, hcolor, hfont]
    cases hq : span.size with
    | none => simp
    | some q =>
      rw [hq] at hsize
      rw [sizeTruthy] at hsize
      have : ¬ q ≠ 0 := by simpa using hsize
      simp [this]
  have hops : quillSpanOps span = [{ insert := QuillInsert.text span.text, attributes := none }] := by
    rw [quillSpanOps, if_neg htext, hattrs]
    rfl
  refine ⟨hops, ?_⟩
  have h1 : { insert := QuillInsert.text span.text, attributes := none } ∈ quillSpanOps span := by
    rw [hops]; exact List.mem_singleton.mpr rfl
  have h2 : { insert := QuillInsert.text span.text, attributes := none } ∈ quillLineOps line :=
    List.mem_append_left _ (List.mem_flatMap.mpr ⟨span, hs, h1⟩)
  have h3 : { insert := QuillInsert.text span.text, attributes := none } ∈ quillBlockOps block :=
    List.mem_append_left _ (List.mem_flatMap.mpr ⟨line, hl, h2⟩)
  have h4 : { insert := QuillInsert.text span.text, attributes := none }
      ∈ quillPageOps pdf_data.total_pages page := by
    rw [quillPageOps]
    exact List.mem_append_left _ (List.mem_append_left _ (List.mem_append_left _
      (List.mem_append_right _ (List.mem_flatMap.mpr ⟨block, hb, h3⟩))))
  exact List.mem_flatMap.mpr ⟨page, hp, h4⟩

/-- The span used by the C3 amended witness: as the counterexample span but
with an empty font name. -/
def c3wSpan : Span :=
  { text := "y", size := none, font := "", bold := false, italic := false,
    color := "#000000", bbox := ⟨0, 0, 10, 10⟩ }

/-- One line holding the witness span. -/
def c3wLine : Line := { bbox := ⟨0, 0, 10, 10⟩, wmode := 0, dir := (1, 0), spans := [c3wSpan] }

/-- One block holding the witness line. -/
def c3wBlock : Block := { bbox := ⟨0, 0, 10, 10⟩, lines := [c3wLine] }

/-- The witness page. -/
def c3wPage : PageData :=
  { page_number := 1, text_blocks := [c3wBlock], images := [], tables := [],
    elements := [], width := 595, height := 842 }

/-- The witness document. -/
def c3wDoc : PdfData := { pages := [c3wPage], total_pages := 1 }

/-- Witness for C3 (amended) at a concrete default-styled span with empty
font name. -/
theorem quill_attr_minimal_amended_witness :
    quillSpanOps c3wSpan = [{ insert := QuillInsert.text c3wSpan.text, attributes := none }]
    ∧ { insert := QuillInsert.text c3wSpan.text, attributes := none }
        ∈ (convert_to_quill_delta c3wDoc).ops :=
  quill_attr_minimal_amended c3wDoc c3wPage c3wBlock c3wLine c3wSpan
    (List.mem_singleton.mpr rfl) (List.mem_singleton.mpr rfl)
    (List.mem_singleton.mpr rfl) (List.mem_singleton.mpr rfl)
    (by decide) rfl rfl rfl rfl rfl

/-- The 2 by 2 table of the C5 counterexample. -/
def c5Table : TableT :=
  { rows := [["A1", "B1"], ["A2", "B2"]], bbox := ⟨0, 0, 100, 50⟩,
    num_rows := 2, num_cols := 2, type := "grid" }

/-- The page holding the C5 table. -/
def c5PageData : PageData :=
  { page_number := 1, text_blocks := [], images := [], tables := [c5Table],
    elements := [], width := 595, height := 842 }

/-- The pdf_data of the C5 counterexample. -/
def c5Doc : PdfData := { pages := [c5PageData], total_pages := 1 }

/-- Counterexample for C5: the document contains the 2 by 2 table with
cells A1, B1, A2, B2, yet NO op of the conversion has insert text exactly
"A1 | B1": the row ops carry a trailing newline ("A1 | B1" followed by a
line feed), and the table header op text is the emoji marker line, not the
bare header the claim states. -/
theorem quill_table_render_cex :
    c5Table.rows = [["A1", "B1"], ["A2", "B2"]]
    ∧ (∀ op ∈ (convert_to_quill_delta c5Doc).ops,
        op.insert ≠ QuillInsert.text "A1 | B1")
    ∧ (∀ op ∈ (convert_to_quill_delta c5Doc).ops,
        op.insert ≠ QuillInsert.text "Tableau détecté:") := by
  refine ⟨rfl, ?_, ?_⟩ <;> decide

/-- Claim C5 (amended): for every detected table the conversion emits a
bold header op whose text is the emoji marker line ending in a newline,
followed by one op per row whose text is the cells joined with the
vertical-bar separator PLUS a trailing newline (so the 2 by 2 example
yields ops whose texts are "A1 | B1" and "A2 | B2" each followed by a line
feed), and each such row op appears in the converted ops. -/
theorem quill_table_render_amended (pdf_data : PdfData) (page : PageData)
    (table : TableT) (hp : page ∈ pdf_data.pages) (ht : table ∈ page.tables) :
    quillTableOps table
      = { insert := QuillInsert.text "📊 Tableau détecté:\n",
          attributes := some [("bold", AttrVal.boolV true),
                              ("color", AttrVal.strV "#4a5568")] }
        :: (table.rows.map (fun row =>
              { insert := QuillInsert.text (String.intercalate " | " row ++ "\n"),
                attributes := none })
            ++ [{ insert := QuillInsert.text "\n", attributes := none }])
    ∧ ∀ row ∈ table.rows,
        { insert := QuillInsert.text (String.intercalate " | " row ++ "\n"),
          attributes := none } ∈ (convert_to_quill_delta pdf_data).ops := by
  refine ⟨rfl, ?_⟩
  intro row hrow
  have h1 : (⟨QuillInsert.text (String.intercalate " | " row ++ "\n"), none⟩ : QuillOp)
      ∈ quillTableOps table := by
    rw [quillTableOps]
    exact List.mem_append_left _ (List.mem_append_right _
      (List.mem_map_of_mem _ hrow))
  have h2 : (⟨QuillInsert.text (String.intercalate " | " row ++ "\n"), none⟩ : QuillOp)
      ∈ quillPageOps pdf_data.total_pages page := by
    rw [quillPageOps]
    exact List.mem_append_left _ (List.mem_append_right _
      (List.mem_flatMap.mpr ⟨table, ht, h1⟩))
  exact List.mem_flatMap.mpr ⟨page, hp, h2⟩

/-- Witness for C5 (amended) at the concrete 2 by 2 table: the op with text
"A1 | B1" plus newline is among the converted ops. -/
theorem quill_table_render_amended_witness :
    quillTableOps c5Table
      = { insert := QuillInsert.text "📊 Tableau détecté:\n",
          attributes := some [("bold", AttrVal.boolV true),
                              ("color", AttrVal.strV "#4a5568")] }
        :: (c5Table.rows.map (fun row =>
              { insert := QuillInsert.text (String.intercalate " | " row ++ "\n"),
                attributes := none })
            ++ [{ insert := QuillInsert.text "\n", attributes := none }])
    ∧ { insert := QuillInsert.text (String.intercalate " | " ["A1", "B1"] ++ "\n"),
        attributes := none } ∈ (convert_to_quill_delta c5Doc).ops := by
  have h := quill_table_render_amended c5Doc c5PageData c5Table
    (List.mem_singleton.mpr rfl) (List.mem_singleton.mpr rfl)
  exact ⟨h.1, h.2 ["A1", "B1"] (by decide)⟩

/-- Whether the character list hay starts with the character list sub. -/
def charsStartWith : List Char → List Char → Bool
  | _, [] => true
  | [], _ :: _ => false
  | a :: as, b :: bs => a = b && charsStartWith as bs

/-- Whether sub occurs inside hay (contiguously). -/
def charsContain : List Char → List Char → Bool
  | [], sub => sub.isEmpty
  | a :: as, sub => charsStartWith (a :: as) sub || charsContain as sub

/-- Python substring containment, the in operator on strings. -/
def pyStrContains (hay sub : String) : Bool := charsContain hay.data sub.data

/-- The web font family heuristic of convert_to_fabric_objects
(advanced_pdf_service.py lines 1234-1246): default Arial, otherwise map the
cleaned base font name through the serif/mono/sans keyword tests. -/
def fontFamilyFor (font : String) : String :=
  if font = "" then "Arial"
  else
    let font_clean := pyFontBase font
    if pyStrContains font_clean "Times" || pyStrContains font_clean "Serif" then
      "Times New Roman"
    else if pyStrContains font_clean "Courier" || pyStrContains font_clean "Mono" then
      "Courier New"
    else if pyStrContains font_clean "Helvetica" || pyStrContains font_clean "Arial" then
      "Arial"
    else font_clean

/-- One positioned Fabric.js object.  Constant presentational keys that are
identical on every emitted dictionary of a kind (origin, shadow, lineHeight,
charSpacing, hasControls, crossOrigin) are not modelled; editable is false
where the source emits no editable key. -/
inductive FObj where
  | rect (left top width height : ℚ) (fill stroke : String) (strokeWidth : ℚ)
      (selectable : Bool)
  | textO (text : String) (left top fontSize : ℚ)
      (fontWeight fontStyle fill fontFamily : String) (selectable editable : Bool)
  | line (x1 y1 x2 y2 : ℚ) (stroke : String) (strokeWidth : ℚ)
  | image (src : String) (left top width height : ℚ)
  deriving DecidableEq

/-- The canvas magnification factor (line 1051). -/
def scale_factor : ℚ := 3/2

/-- The vertical spacing between pages (line 1050). -/
def page_spacing : ℚ := 50

/-- The vertical offset of a page: page_idx * (scaled height + spacing). -/
def fabricYOffset (page_idx : ℕ) (page : PageData) : ℚ :=
  page_idx * (page.height * scale_factor + page_spacing)

/-- The page background rect and page-number badge (lines 1059-1092). -/
def fabricHeaderObjs (page_idx : ℕ) (page : PageData) : List FObj :=
  let page_width := page.width * scale_factor
  let page_height := page.height * scale_factor
  let page_y_offset := fabricYOffset page_idx page
  [FObj.rect 0 page_y_offset page_width page_height "#ffffff" "#cbd5e0" 1 false,
   FObj.textO (toString page.page_number) (page_width - 45) (page_y_offset + 15) 12
     "bold" "normal" "#a0aec0" "Arial" false false]

/-- The objects emitted for one table (lines 1096-1192): nothing when the
table has no rows; otherwise the near-transparent overlay rect, the
horizontal separator lines (header line thicker, outer and header lines
darker), the vertical separator lines (outer lines darker), and one faint
tint rect per header cell.  The normalized_rows value the source computes
is dead code (never used after its construction) and is not modelled. -/
def fabricTableObjs (page_y_offset : ℚ) (table : TableT) : List FObj :=
  if table.rows.isEmpty then []
  else
    let table_left := table.bbox.x0 * scale_factor
    let table_top := page_y_offset + table.bbox.y0 * scale_factor
    let table_width := (table.bbox.x1 - table.bbox.x0) * scale_factor
    let table_height := (table.bbox.y1 - table.bbox.y0) * scale_factor
    let num_rows := table.num_rows
    let num_cols := table.num_cols
    let cell_height := if num_rows > 0 then table_height / num_rows else 20
    let cell_width := if num_cols > 0 then table_width / num_cols else 100
    [FObj.rect table_left table_top table_width table_height
      "rgba(255, 255, 255, 0.05)" "#2d3748" 2 false]
    ++ (List.range (num_rows + 1)).map (fun i =>
        FObj.line table_left (table_top + i * cell_height)
          (table_left + table_width) (table_top + i * cell_height)
          (if i = 0 ∨ i = 1 then "#2d3748" else "#cbd5e0")
          (if i = 1 then 2 else 1))
    ++ (List.range (num_cols + 1)).map (fun j =>
        FObj.line (table_left + j * cell_width) table_top
          (table_left + j * cell_width) (table_top + table_height)
          (if j = 0 ∨ j = num_cols then "#2d3748" else "#cbd5e0") 1)
    ++ (List.range num_cols).map (fun col_idx =>
        FObj.rect (table_left + col_idx * cell_width + 1) (table_top + 1)
          (cell_width - 2) (cell_height - 2)
          "rgba(237, 242, 247, 0.2)" "transparent" 0 false)

/-- The single text object emitted for one line (lines 1196-1265): spans
merged into one string, style taken from the first span, position from the
line bbox; skipped when there are no spans, no non-empty span text, or the
merged text is whitespace only. -/
def fabricLineObjs (page_y_offset : ℚ) (line : Line) : List FObj :=
  match line.spans with
  | [] => []
  | first_span :: _ =>
    let line_text_parts := (line.spans.map Span.text).filter (fun t => decide (t ≠ ""))
    let full_line_text := String.join line_text_parts
    if line_text_parts.isEmpty then []
    else if full_line_text.trim = "" then []
    else
      [FObj.textO full_line_text (line.bbox.x0 * scale_factor)
        (page_y_offset + line.bbox.y0 * scale_factor)
        ((first_span.size.getD 12) * scale_factor)
        (if first_span.bold then "bold" else "normal")
        (if first_span.italic then "italic" else "normal")
        first_span.color (fontFamilyFor first_span.font) true true]

/-- The text objects of one block. -/
def fabricBlockObjs (page_y_offset : ℚ) (block : Block) : List FObj :=
  block.lines.flatMap (fabricLineObjs page_y_offset)

/-- The image object of one image (lines 1268-1296). -/
def fabricImageObjs (page_y_offset : ℚ) (img : Img) : List FObj :=
  [FObj.image img.data (img.bbox.x0 * scale_factor)
    (page_y_offset + img.bbox.y0 * scale_factor)
    ((img.bbox.x1 - img.bbox.x0) * scale_factor)
    ((img.bbox.y1 - img.bbox.y0) * scale_factor)]

/-- All table-derived objects of one page. -/
def fabricPageTables (page_idx : ℕ) (page : PageData) : List FObj :=
  page.tables.flatMap (fabricTableObjs (fabricYOffset page_idx page))

/-- All text-line objects of one page. -/
def fabricPageTexts (page_idx : ℕ) (page : PageData) : List FObj :=
  page.text_blocks.flatMap (fabricBlockObjs (fabricYOffset page_idx page))

/-- All image objects of one page. -/
def fabricPageImages (page_idx : ℕ) (page : PageData) : List FObj :=
  page.images.flatMap (fabricImageObjs (fabricYOffset page_idx page))

/-- The objects of one page, in emission order: background and badge, then
tables (deliberately BEFORE text, lines 1094-1095), then text lines, then
images. -/
def fabricPageObjs (page_idx : ℕ) (page : PageData) : List FObj :=
  fabricHeaderObjs page_idx page ++ fabricPageTables page_idx page
    ++ fabricPageTexts page_idx page ++ fabricPageImages page_idx page

/-- The flat object list over all pages, page_idx counting from 0. -/
def fabricPagesObjs : ℕ → List PageData → List FObj
  | _, [] => []
  | i, page :: rest => fabricPageObjs i page ++ fabricPagesObjs (i + 1) rest

/-- The returned Fabric canvas description (lines 1320-1326). -/
structure FabricCanvas where
  version : String
  objects : List FObj
  background : String
  canvasHeight : ℚ
  canvasWidth : ℤ

/-- Embedding of PDFToEditableConverter.convert_to_fabric_objects
(advanced_pdf_service.py lines 1037-1326), including the canvas height and
width computations of lines 1298-1318. -/
def convert_to_fabric_objects (pdf_data : PdfData) : FabricCanvas :=
  { version := "5.3.0"
    objects := fabricPagesObjs 0 pdf_data.pages
    background := "#e2e8f0"
    canvasHeight :=
      match pdf_data.pages with
      | [] => 1200
      | first_page :: _ =>
        let num_pages := pdf_data.pages.length
        let page_height_scaled := first_page.height * scale_factor
        ((num_pages : ℚ) - 1) * (page_height_scaled + page_spacing)
          + page_height_scaled + 50
    canvasWidth :=
      match pdf_data.pages with
      | [] => 900
      | p :: ps =>
        let pdf_width := (ps.map PageData.width).foldl max p.width
        let canvas_width := ratTrunc (pdf_width * (3/2))
        if canvas_width < 900 then 900 else canvas_width }

lemma fabricPagesObjs_decomp :
    ∀ (l : List PageData) (i j : ℕ) (page : PageData), l.get? j = some page →
      ∃ pre post, fabricPagesObjs i l = pre ++ fabricPageObjs (i + j) page ++ post := by
  intro l
  induction l with
  | nil => intro i j page h; cases h
  | cons p rest ih =>
    intro i j page h
    cases j with
    | zero =>
      rw [List.get?_cons_zero] at h
      injection h with h
      refine ⟨[], fabricPagesObjs (i + 1) rest, ?_⟩
      rw [h]
      simp [fabricPagesObjs]
    | succ j =>
      rw [List.get?_cons_succ] at h
      obtain ⟨pre, post, hp⟩ := ih (i + 1) j page h
      refine ⟨fabricPageObjs i p ++ pre, post, ?_⟩
      rw [fabricPagesObjs, hp]
      have heq : i + 1 + j = i + (j + 1) := by omega
      rw [heq]
      simp only [List.append_assoc]

/-- Claim C6: z-order invariant of the positioned-object conversion.  For
every page of the input, the object list of convert_to_fabric_objects
decomposes around that page so that all of its table-derived objects
(overlay rect, separator lines, header tint rects) form one contiguous
segment immediately followed by all of its text-line objects: every
table-derived object of the page therefore occupies a strictly earlier
list position than every text object derived from the page text lines. -/
theorem fabric_tables_before_text (pdf_data : PdfData) (j : ℕ) (page : PageData)
    (h : pdf_data.pages.get? j = some page) :
    ∃ pre post,
      (convert_to_fabric_objects pdf_data).objects
        = pre ++ (fabricPageTables j page ++ fabricPageTexts j page) ++ post := by
  obtain ⟨pre, post, hp⟩ := fabricPagesObjs_decomp pdf_data.pages 0 j page h
  rw [Nat.zero_add] at hp
  refine ⟨pre ++ fabricHeaderObjs j page, fabricPageImages j page ++ post, ?_⟩
  show fabricPagesObjs 0 pdf_data.pages = _
  rw [hp, fabricPageObjs]
  simp only [List.append_assoc]

/-- The page used by the C6 witness: one table and one one-span text
line. -/
def c6Page : PageData :=
  { page_number := 1,
    text_blocks := [{ bbox := ⟨10, 10, 200, 20⟩,
                      lines := [{ bbox := ⟨10, 10, 200, 20⟩, wmode := 0, dir := (1, 0),
                                  spans := [{ text := "hello", size := some 12,
                                              font := "Helvetica", bold := false,
                                              italic := false, color := "#000000",
                                              bbox := ⟨10, 10, 200, 20⟩ }] }] }],
    images := [],
    tables := [c5Table],
    elements := [], width := 595, height := 842 }

/-- The pdf_data of the C6 witness. -/
def c6Doc : PdfData := { pages := [c6Page], total_pages := 1 }

/-- Witness for C6 at a concrete one-page document holding one table and
one text line. -/
theorem fabric_tables_before_text_witness :
    ∃ pre post,
      (convert_to_fabric_objects c6Doc).objects
        = pre ++ (fabricPageTables 0 c6Page ++ fabricPageTexts 0 c6Page) ++ post :=
  fabric_tables_before_text c6Doc 0 c6Page rfl

/-- One table dictionary built by PDFStructureExtractor.extract_structure
(pdf_extractor.py lines 95-99): cleaned cell data plus row and column
counts. -/
structure PTable where
  data : List (List String)
  rows : ℕ
  cols : ℕ
  deriving DecidableEq

/-- One page dictionary of the pdfplumber-based extractor (pdf_extractor.py
lines 57-63). -/
structure SPage where
  page_number : ℕ
  text : String
  tables : List PTable
  width : ℚ
  height : ℚ
  deriving DecidableEq

/-- The raw pdfplumber data for one page: the two extract_tables results
(standard, then the permissive fallback used only when the standard call
finds nothing, lines 67-81), the extract_text result, and the page size. -/
structure RawPage where
  tablesStandard : List (List (List (Option String)))
  tablesPermissive : List (List (List (Option String)))
  textR : Option String
  width : ℚ
  height : ℚ

/-- Cleaning of one raw table (lines 87-92): None cells become empty
strings, other cells are stripped, then fully-empty rows are dropped. -/
def cleanRawTable (table : List (List (Option String))) : List (List String) :=
  (table.map (fun row => row.map (fun cell =>
      match cell with
      | some c => c.trim
      | none => ""))).filter
    (fun row => row.any (fun cell => decide (cell ≠ "")))

/-- The tables list of one page (lines 65-99): standard result, else the
permissive fallback; empty raw tables and tables whose cleaned form is
empty are skipped; kept tables record the cleaned data with its row and
column counts. -/
def structPageTables (raw : RawPage) : List PTable :=
  let tables := if raw.tablesStandard.isEmpty then raw.tablesPermissive
                else raw.tablesStandard
  tables.foldl (fun acc table =>
    if table.isEmpty then acc
    else
      let cleaned_table := cleanRawTable table
      if cleaned_table.isEmpty then acc
      else acc ++ [{ data := cleaned_table, rows := cleaned_table.length,
                     cols := (cleaned_table.headD []).length }])
    []

/-- One page dictionary (lines 56-106); a None or empty extract_text result
leaves the empty default text. -/
def structPage (page_num : ℕ) (raw : RawPage) : SPage :=
  { page_number := page_num, text := raw.textR.getD "",
    tables := structPageTables raw, width := raw.width, height := raw.height }

/-- The pages_data list, page numbers counting from 1 as in
enumerate(pdf.pages, 1). -/
def structPages : ℕ → List RawPage → List SPage
  | _, [] => []
  | n, r :: rest => structPage n r :: structPages (n + 1) rest

/-- The three ways the pdfplumber interaction can go: library missing
(lines 44-50), pdfplumber.open or any page operation raising (caught at
lines 114-120), or a successful run over the pages. -/
inductive PdfOpenOutcome where
  | unavailable
  | failure (e : String)
  | opened (pages : List RawPage)

/-- The dictionary returned by extract_structure; every branch carries the
keys success, pages and total_pages (error only on the failure
branches). -/
structure StructResult where
  success : Bool
  error : Option String
  pages : List SPage
  total_pages : ℕ

/-- Embedding of PDFStructureExtractor.extract_structure (pdf_extractor.py
lines 19-120).  The function is total: every exception path of the source
is caught and turned into the success=false dictionary, so the embedding
returns a plain StructResult for every outcome. -/
def extract_structure : PdfOpenOutcome → StructResult
  | .unavailable =>
    { success := false, error := some "pdfplumber non installé", pages := [],
      total_pages := 0 }
  | .failure e =>
    { success := false, error := some e, pages := [], total_pages := 0 }
  | .opened raws =>
    let pages_data := structPages 1 raws
    { success := true, error := none, pages := pages_data,
      total_pages := pages_data.length }

/-- Claim C10: totality and success/shape coupling of the pdfplumber
structure extractor.  extract_structure is a total function of the
pdfplumber outcome (never raises: all source exception paths return the
failure dictionary), always yields the success/pages/total_pages keys (the
StructResult type), with empty pages and zero total_pages whenever success
is false, and total_pages equal to the page count whenever success is
true. -/
theorem extract_structure_shape (o : PdfOpenOutcome) :
    ((extract_structure o).success = false →
      (extract_structure o).pages = [] ∧ (extract_structure o).total_pages = 0)
    ∧ ((extract_structure o).success = true →
      (extract_structure o).total_pages = (extract_structure o).pages.length) := by
  cases o <;> simp [extract_structure]

/-- Witness for C10 at a concrete failing open and a concrete successful
run. -/
theorem extract_structure_shape_witness :
    (extract_structure (PdfOpenOutcome.failure "boom")).pages = []
    ∧ (extract_structure (PdfOpenOutcome.failure "boom")).total_pages = 0
    ∧ (extract_structure (PdfOpenOutcome.opened [])).total_pages
        = (extract_structure (PdfOpenOutcome.opened [])).pages.length := by
  refine ⟨?_, ?_, ?_⟩
  · exact ((extract_structure_shape (PdfOpenOutcome.failure "boom")).1 rfl).1
  · exact ((extract_structure_shape (PdfOpenOutcome.failure "boom")).1 rfl).2
  · exact (extract_structure_shape (PdfOpenOutcome.opened [])).2 rfl

/-- Python's repeated literal replacement loop, shared by
generate_pdf_from_structure (pdf_generator.py lines 402-405) and
_apply_modifications_to_table (lines 498-500): for each (old, new) pair in
insertion order, when old occurs, replace all its occurrences. -/
def pyReplaceAll (modifications : List (String × String)) (text : String) : String :=
  modifications.foldl
    (fun t m => if pyStrContains t m.1 then t.replace m.1 m.2 else t) text

/-- Embedding of PDFDocumentGenerator._apply_modifications_to_table
(pdf_generator.py lines 486-505): rebuild the table row by row and cell by
cell, normalising falsy cells to the empty string and applying every
substitution to each cell. -/
def _apply_modifications_to_table (table_data : List (List String))
    (modifications : List (String × String)) : List (List String) :=
  table_data.foldl
    (fun modified_table row =>
      modified_table ++
        [row.foldl
          (fun modified_row cell =>
            let cell_text := if cell ≠ "" then cell else ""
            modified_row ++ [pyReplaceAll modifications cell_text])
          []])
    []

/-- What generate_pdf_from_structure lays out for the text of one page:
nothing (falsy text, or a whitespace-only two-line header on a table
page), the first two lines only (page with tables), or the full text
handed to _parse_clean_content (page without tables). -/
inductive PageTextLayout where
  | noText
  | headerOnly (s : String)
  | fullText (s : String)
  deriving DecidableEq

/-- The per-page content handed to the reportlab layout: the text part and
the table data list (rendering of non-empty data into reportlab Table
objects, column widths and styling are reportlab territory and are not
modelled). -/
structure PageLayout where
  textPart : PageTextLayout
  tables : List (List (List String))
  deriving DecidableEq

/-- lines[:2] joined back, the header heuristic of pdf_generator.py lines
409-410. -/
def first_two_lines (s : String) : String :=
  String.intercalate "\n" ((s.splitOn "\n").take 2)

/-- The page text after the modification block (lines 398-405): unchanged
when the modification mapping is falsy (absent or empty). -/
def pageTextAfterMods (modifications : List (String × String)) (page : SPage) : String :=
  if modifications.isEmpty then page.text else pyReplaceAll modifications page.text

/-- The content of one page of generate_pdf_from_structure (pdf_generator.py
lines 387-479): falsy text contributes nothing; pages with tables lay out
only the first two (modified) text lines and only when they are not
whitespace; pages without tables lay out the whole (modified) text; each
table lays out its data, passed through _apply_modifications_to_table only
when the modification mapping is truthy. -/
def layoutPage (modifications : List (String × String)) (page : SPage) : PageLayout :=
  { textPart :=
      if page.text = "" then PageTextLayout.noText
      else
        let page_text := pageTextAfterMods modifications page
        if !page.tables.isEmpty then
          let header_text := first_two_lines page_text
          if header_text.trim = "" then PageTextLayout.noText
          else PageTextLayout.headerOnly header_text
        else PageTextLayout.fullText page_text
    tables := page.tables.map (fun t =>
      if modifications.isEmpty then t.data
      else _apply_modifications_to_table t.data modifications) }

/-- The story content of generate_pdf_from_structure: the title paragraph
followed by the per-page layouts. -/
structure GeneratedStory where
  title : String
  pageLayouts : List PageLayout
  deriving DecidableEq

/-- Embedding of PDFDocumentGenerator.generate_pdf_from_structure
(pdf_generator.py lines 357-484), down to the content handed to reportlab;
an absent modification mapping is the empty list (both are falsy in the
source's if modifications test). -/
def generate_pdf_from_structure (title : String) (pdf_structure : List SPage)
    (modifications : List (String × String)) : GeneratedStory :=
  { title := title, pageLayouts := pdf_structure.map (layoutPage modifications) }

/-- The layout of one page written directly from the unmodified input,
with no mention of the modification machinery: the spec-side description
for claim C7. -/
def unmodifiedPageLayout (page : SPage) : PageLayout :=
  { textPart :=
      if page.text = "" then PageTextLayout.noText
      else if page.tables.isEmpty then PageTextLayout.fullText page.text
      else if (first_two_lines page.text).trim = "" then PageTextLayout.noText
      else PageTextLayout.headerOnly (first_two_lines page.text)
    tables := page.tables.map PTable.data }

lemma foldl_append_map {α β : Type} (f : α → β) :
    ∀ (l : List α) (acc : List β),
      l.foldl (fun a x => a ++ [f x]) acc = acc ++ l.map f := by
  intro l
  induction l with
  | nil => intro acc; simp
  | cons x xs ih =>
    intro acc
    rw [List.foldl_cons, ih, List.map_cons, List.append_assoc]
    rfl

lemma cell_truthiness (cell : String) : (if cell ≠ "" then cell else "") = cell := by
  by_cases h : cell = ""
  · simp [h]
  · simp [h]

/-- Claim C9: modification application preserves table shape.  The rebuilt
table is exactly the cell-wise map of the substitution function over the
input (so it has the same number of rows, and each row the same number of
cells, as the input), and each output cell is the input cell (its string
form: falsy cells normalise to the empty string, which for string cells is
the identity) with every literal substitution applied in order. -/
theorem table_modification_shape (table_data : List (List String))
    (modifications : List (String × String)) :
    _apply_modifications_to_table table_data modifications
      = table_data.map (fun row => row.map (pyReplaceAll modifications))
    ∧ (_apply_modifications_to_table table_data modifications).length
        = table_data.length
    ∧ (_apply_modifications_to_table table_data modifications).map List.length
        = table_data.map List.length := by
  have hcell : (fun cell => pyReplaceAll modifications
      (if cell ≠ "" then cell else "")) = pyReplaceAll modifications := by
    funext cell
    rw [cell_truthiness]
  have hrow : ∀ row : List String,
      row.foldl (fun modified_row cell =>
        modified_row ++ [pyReplaceAll modifications
          (if cell ≠ "" then cell else "")]) []
        = row.map (pyReplaceAll modifications) := by
    intro row
    rw [show (fun (modified_row : List String) (cell : String) =>
        modified_row ++ [pyReplaceAll modifications (if cell ≠ "" then cell else "")])
        = fun modified_row cell =>
            modified_row ++ [(fun c => pyReplaceAll modifications
              (if c ≠ "" then c else "")) cell] from rfl]
    rw [foldl_append_map, hcell]
    rfl
  have hmain : _apply_modifications_to_table table_data modifications
      = table_data.map (fun row => row.map (pyReplaceAll modifications)) := by
    rw [_apply_modifications_to_table]
    rw [show (fun (modified_table : List (List String)) (row : List String) =>
        modified_table ++
          [row.foldl (fun modified_row cell =>
            modified_row ++ [pyReplaceAll modifications
              (if cell ≠ "" then cell else "")]) []])
        = fun modified_table row =>
            modified_table ++ [(fun r : List String =>
              r.foldl (fun modified_row cell =>
                modified_row ++ [pyReplaceAll modifications
                  (if cell ≠ "" then cell else "")]) []) row] from rfl]
    rw [foldl_append_map]
    rw [List.nil_append]
    apply List.map_congr_left
    intro row _
    exact hrow row
  refine ⟨hmain, ?_, ?_⟩
  · rw [hmain, List.length_map]
  · rw [hmain, List.map_map]
    apply List.map_congr_left
    intro row _
    simp [Function.comp]

/-- Claim C7: identity of the empty modification map in
structure-preserving synthesis.  With an empty (or absent, both falsy)
modification mapping, generate_pdf_from_structure hands the layout exactly
the unmodified input: the full text (pages without tables) or its first
two lines (pages with tables) taken verbatim from the input structure
text, and every table data unchanged; pyReplaceAll with no pairs is the
identity, and the cell rebuild with no pairs returns the table
unchanged. -/
theorem empty_modifications_layout (title : String) (pdf_structure : List SPage) :
    generate_pdf_from_structure title pdf_structure []
      = { title := title, pageLayouts := pdf_structure.map unmodifiedPageLayout }
    ∧ (∀ page : SPage, layoutPage [] page = unmodifiedPageLayout page)
    ∧ (∀ s : String, pyReplaceAll [] s = s)
    ∧ (∀ table_data : List (List String),
        _apply_modifications_to_table table_data [] = table_data) := by
  have hpage : ∀ page : SPage, layoutPage [] page = unmodifiedPageLayout page := by
    intro page
    rw [layoutPage, unmodifiedPageLayout]
    by_cases htext : page.text = ""
    · by_cases htab : page.tables.isEmpty <;>
        simp [htext, htab, pageTextAfterMods]
    · by_cases htab : page.tables.isEmpty
      · simp [htext, htab, pageTextAfterMods]
      · by_cases htrim : (first_two_lines page.text).trim = "" <;>
          simp [htext, htab, htrim, pageTextAfterMods]
  refine ⟨?_, hpage, ?_, ?_⟩
  · rw [generate_pdf_from_structure]
    have : pdf_structure.map (layoutPage []) = pdf_structure.map unmodifiedPageLayout :=
      List.map_congr_left (fun page _ => hpage page)
    rw [this]
  · intro s
    rfl
  · intro table_data
    rw [(table_modification_shape table_data []).1]
    have : pyReplaceAll ([] : List (String × String)) = id := by
      funext s
      rfl
    rw [this]
    simp
